import Mathlib

/-
  Verification development for the backtrader_ib_insync data feed
  (src/backtrader_ib_insync/ibdata.py).

  The embedding covers the three cores of the file:
    - the contract specification parser `parsecontract` (lines 278-354),
    - the bar normalizers `_load_rtbar` / `_load_rtvolume` (lines 541-601),
    - the `_load` finite state machine and `_st_start` (lines 428-539).

  Modelling conventions:
    - Python strings are `String`; `str.split` is modelled by `pySplit`,
      which agrees with Python for a one-character separator.
    - Python `float(...)` on the decimal-literal strings that the ticker
      grammar produces is modelled by `pyFloat` into `Rat` (the grammar
      never produces exponents, infinities or NaN).
    - Python exceptions are an explicit `Except PyErr` result.
    - datetimes are `Rat` values in day units (the float day numbers that
      the external backtrader utility `date2num` yields); `date2num` is
      therefore the identity order embedding, and `timedelta(hours=h)`
      is addition of `h / 24`.
    - the bar buffer (lines of the sink) is modelled by the last delivered
      timestamp `lastDt` plus the list of delivered bars; writing slot 0
      and advancing corresponds to appending and updating `lastDt`.
    - the broker gateway channels are lists (front of list = next item);
      re-issuing a live subscription returns the same queue, matching the
      store cache and the idempotence stated for repeated subscriptions.
-/

namespace IBData

/-- Decides whether a character is an ASCII decimal digit. -/
def isDigitChar (c : Char) : Bool := '0' ≤ c && c ≤ '9'

/-- Numeric value of a list of decimal digit characters. -/
def digitsToNat (l : List Char) : Nat :=
  List.foldl (fun a c => a * 10 + (c.toNat - 48)) 0 l

/-- Model of Python `str.isdigit` on the ASCII strings of the ticker
grammar: true exactly for a nonempty all-digit string. -/
def pyIsdigit (s : String) : Bool :=
  !s.data.isEmpty && s.data.all isDigitChar

/-- Splits a character list at every occurrence of `sep`, keeping empty
segments, exactly as Python `str.split(sep)` does for a one-character
separator. The result is never the empty list. -/
def splitCh (sep : Char) : List Char → List (List Char)
  | [] => [[]]
  | c :: t =>
    let r := splitCh sep t
    if c = sep then [] :: r
    else
      match r with
      | [] => [[c]]
      | h :: t2 => (c :: h) :: t2

/-- Model of Python `str.split(sep)` for a one-character separator. -/
def pySplit (sep : Char) (s : String) : List String :=
  (splitCh sep s.data).map String.mk

/-- Model of Python `float(...)` on plain decimal literals (optional sign,
digits, optional fractional part); `none` models the ValueError raised on
any other string. The ticker grammar never produces exponent forms. -/
def pyFloat (s : String) : Option Rat :=
  let core : List Char → Option Rat := fun l =>
    let intPart := l.takeWhile isDigitChar
    let rest := l.dropWhile isDigitChar
    match rest with
    | [] => if intPart.isEmpty then none else some ((digitsToNat intPart : Nat) : Rat)
    | '.' :: frac =>
      if frac.all isDigitChar && !(intPart.isEmpty && frac.isEmpty) then
        some ((digitsToNat intPart : Nat) + ((digitsToNat frac : Nat) : Rat) / ((10 : Rat) ^ frac.length))
      else none
    | _ => none
  match s.data with
  | '-' :: t => (core t).map (fun x => -x)
  | '+' :: t => core t
  | t => core t

/-- Python exceptions that the modelled code can raise. -/
inductive PyErr
  | stopIteration
  | valueError
  | attributeError
deriving DecidableEq

/-- Contract descriptor: the eight keyword arguments handed to
`make_contract` at ibdata.py lines 343-352. -/
structure Contract where
  symbol : String
  sectype : String
  exch : String
  curr : String
  expiry : String
  strike : Rat
  right : String
  mult : String
deriving DecidableEq

/-- Modelled from the spec: `make_contract` lives in ibstore.py, which is
not under src/; section 4.1 of the spec states that the parse result is a
single ContractDescriptor holding exactly the parsed fields, so the
constructor packs the eight fields unchanged. -/
def make_contract (symbol sectype exch curr expiry : String) (strike : Rat)
    (right mult : String) : Contract :=
  ⟨symbol, sectype, exch, curr, expiry, strike, right, mult⟩

/-- Lines 301-308: a security type token made only of digits is kept as the
expiry, and the type becomes FUT for a six-digit token and OPT otherwise.
Returns the pair (sectype, expiry); expiry starts as the empty string
(line 286). -/
def inferSectypeExpiry (sectype : String) : String × String :=
  if pyIsdigit sectype then
    ((if sectype.length = 6 then "FUT" else "OPT"), sectype)
  else (sectype, "")

/-- Lines 321-329 with the expiry already known: consume `mult`, probe one
further token as `right`; when the probe succeeds the type is promoted to
FOP, the mult token is reparsed as the strike (float, ValueError on
failure), mult is cleared, and one further token is probed as the real
mult. Every StopIteration is swallowed by the surrounding handler, which
builds the contract from the fields assigned so far. -/
def parseFutTail (symbol exch curr expiry : String) (toks : List String) :
    Except PyErr Contract :=
  match toks with
  | [] => .ok (make_contract symbol "FUT" exch curr expiry 0 "" "")
  | m :: toks3 =>
    match toks3 with
    | [] => .ok (make_contract symbol "FUT" exch curr expiry 0 "" m)
    | rtk :: toks4 =>
      match pyFloat m with
      | none => .error .valueError
      | some strike =>
        match toks4 with
        | [] => .ok (make_contract symbol "FOP" exch curr expiry strike rtk "")
        | m2 :: _ => .ok (make_contract symbol "FOP" exch curr expiry strike rtk m2)

/-- Lines 318-329: the FUT continuation; when no expiry was derived from
the type token, the next token is the expiry (StopIteration there builds
the contract with the defaults collected so far). -/
def parseFut (symbol exch curr expiry : String) (toks : List String) :
    Except PyErr Contract :=
  if expiry = "" then
    match toks with
    | [] => .ok (make_contract symbol "FUT" exch curr "" 0 "" "")
    | e :: t => parseFutTail symbol exch curr e t
  else parseFutTail symbol exch curr expiry toks

/-- Lines 334-337 with the expiry already known: consume strike (float,
ValueError on failure), right and mult, stopping silently at the first
missing token. -/
def parseOptTail (symbol exch curr expiry : String) (toks : List String) :
    Except PyErr Contract :=
  match toks with
  | [] => .ok (make_contract symbol "OPT" exch curr expiry 0 "" "")
  | sTok :: toks3 =>
    match pyFloat sTok with
    | none => .error .valueError
    | some strike =>
      match toks3 with
      | [] => .ok (make_contract symbol "OPT" exch curr expiry strike "" "")
      | r :: toks4 =>
        match toks4 with
        | [] => .ok (make_contract symbol "OPT" exch curr expiry strike r "")
        | m :: _ => .ok (make_contract symbol "OPT" exch curr expiry strike r m)

/-- Lines 331-337: the OPT continuation; when no expiry was derived from
the type token, the next token is the expiry. -/
def parseOpt (symbol exch curr expiry : String) (toks : List String) :
    Except PyErr Contract :=
  if expiry = "" then
    match toks with
    | [] => .ok (make_contract symbol "OPT" exch curr "" 0 "" "")
    | e :: t => parseOptTail symbol exch curr e t
  else parseOptTail symbol exch curr expiry toks

/-- Lines 314-340: the optional token tail. The exchange and currency
tokens override their defaults when present; the FUT and OPT types then
consume their extra fields. Exhaustion at any point builds the contract
from the fields assigned so far (the except StopIteration: pass handler at
lines 339-340). -/
def parseRest (symbol sectype exch curr expiry : String) (toks : List String) :
    Except PyErr Contract :=
  match toks with
  | [] => .ok (make_contract symbol sectype exch curr expiry 0 "" "")
  | e :: toks2 =>
    match toks2 with
    | [] => .ok (make_contract symbol sectype e curr expiry 0 "" "")
    | c :: toks3 =>
      if sectype = "FUT" then parseFut symbol e c expiry toks3
      else if sectype = "OPT" then parseOpt symbol e c expiry toks3
      else .ok (make_contract symbol sectype e c expiry 0 "" "")

/-- Feed parameters (the params tuple at lines 196-211) restricted to the
fields the parser, the normalizers and the state machine read.
`hist_tzo = none` models the Python value None; the source default is the
integer 0, hence `some 0` here. -/
structure IBParams where
  sectype : String := "STK"
  exchange : String := "SMART"
  currency : String := ""
  rtbar : Bool := false
  historical : Bool := false
  backfill_start : Bool := true
  backfill : Bool := true
  latethrough : Bool := false
  hist_tzo : Option Rat := some 0
deriving DecidableEq

/-- Default parameter set of the params tuple. -/
def defaultIBParams : IBParams := {}

/-- Lines 310-311 onwards: the CASH type splits the symbol on a dot into
symbol and currency, raising ValueError unless the split yields exactly
two parts; every other type keeps the symbol and the default currency. -/
def parseAfterInfer (p : IBParams) (symbol sectype expiry : String)
    (rest2 : List String) : Except PyErr (Option Contract) :=
  if sectype = "CASH" then
    match pySplit '.' symbol with
    | [sym, cur] => (parseRest sym sectype p.exchange cur expiry rest2).map some
    | _ => .error .valueError
  else (parseRest symbol sectype p.exchange p.currency expiry rest2).map some

/-- Lines 294-311 after the split: the first token is the symbol, the
second token (default: the sectype parameter) is the security type
candidate, which the digit rule may turn into an expiry. -/
def parseTokens (p : IBParams) (toks : List String) : Except PyErr (Option Contract) :=
  match toks with
  | [] => .error .stopIteration
  | symbol :: rest =>
    parseAfterInfer p symbol
      (inferSectypeExpiry (match rest with | [] => p.sectype | st :: _ => st)).1
      (inferSectypeExpiry (match rest with | [] => p.sectype | st :: _ => st)).2
      (match rest with | [] => [] | _ :: r => r)

/-- Lines 278-354: `parsecontract`. A None dataname yields None; otherwise
the dash-separated tokens are consumed left to right and the resulting
descriptor is built by `make_contract`. -/
def parsecontract (p : IBParams) (dataname : Option String) :
    Except PyErr (Option Contract) :=
  match dataname with
  | none => .ok none
  | some dn => parseTokens p (pySplit '-' dn)

/-- First dash token of a dataname (the symbol, line 295). -/
def symbolToken (dn : String) : String := (pySplit '-' dn).headD ""

/-- Second dash token of a dataname, or the sectype default when absent
(lines 296-299). -/
def sectypeToken (p : IBParams) (dn : String) : String :=
  match pySplit '-' dn with
  | [] => p.sectype
  | _ :: [] => p.sectype
  | _ :: st :: _ => st

/-- Security type after the digit inference of lines 301-308. -/
def resolvedSectype (p : IBParams) (dn : String) : String :=
  (inferSectypeExpiry (sectypeToken p dn)).1

/-- Model of the external backtrader utility date2num: timestamps are
already carried as float day numbers, so the conversion is the identity
order embedding. -/
def date2num (d : Rat) : Rat := d

/-- Raw real-time or historical bar message: `date` carries the datetime
of a historical bar, `time` that of a live five-second bar; `open_` is the
open price under either of its two attribute spellings. -/
structure RTBar where
  date : Rat
  time : Rat
  open_ : Rat
  high : Rat
  low : Rat
  close : Rat
  volume : Rat
deriving DecidableEq

/-- Raw RTVolume tick message. -/
structure RTVol where
  time : Rat
  price : Rat
  size : Rat
deriving DecidableEq

/-- One canonical bar written to the sink lines (lines 556-566). -/
structure SinkBar where
  datetime : Rat
  open_ : Rat
  high : Rat
  low : Rat
  close : Rat
  volume : Rat
  openinterest : Rat
deriving DecidableEq

/-- Lines 546-552: timestamp extraction of `_load_rtbar`. For a historical
bar with `hist_tzo` None, the machine offset (`time.timezone / 3600`,
given here in hours as `machineTzo`) is added to the date before
conversion; the one-line adjustment sits inside the None branch, so any
numeric `hist_tzo` value leaves the date untouched. Live bars use the
`time` attribute. -/
def rtbar_dt (machineTzo : Rat) (histTzo : Option Rat) (hist : Bool) (bar : RTBar) : Rat :=
  if hist then
    match histTzo with
    | none => date2num (bar.date + machineTzo / 24)
    | some _ => date2num bar.date
  else date2num bar.time

/-- Lines 541-579: `_load_rtbar`. Returns the sink bar on delivery and
`none` on the late-data rejection of lines 553-554. -/
def load_rtbar (machineTzo : Rat) (latethrough : Bool) (lastDt : Rat)
    (bar : RTBar) (hist : Bool) (histTzo : Option Rat) : Option SinkBar :=
  let dt := rtbar_dt machineTzo histTzo hist bar
  if dt < lastDt ∧ latethrough = false then none
  else some ⟨dt, bar.open_, bar.high, bar.low, bar.close, bar.volume, 0⟩

/-- Lines 581-601: `_load_rtvolume`. A single tick price fills the whole
bar; volume is the tick size and open interest is zero. -/
def load_rtvolume (latethrough : Bool) (lastDt : Rat) (v : RTVol) : Option SinkBar :=
  let dt := date2num v.time
  if dt < lastDt ∧ latethrough = false then none
  else some ⟨dt, v.price, v.price, v.price, v.price, v.size, 0⟩

/-- States of the `_load` finite state machine (line 219). -/
inductive FState
  | from_
  | start
  | live
  | historback
  | over
deriving DecidableEq

/-- Lifecycle notifications emitted by the feed. -/
inductive Notif
  | connected
  | disconnected
  | delayed
  | liveNotif
deriving DecidableEq

/-- One message of the live queue: an RTVolume tick when ticks were
subscribed, a real-time bar otherwise. -/
inductive LiveMsg
  | vol (v : RTVol)
  | bar (b : RTBar)
deriving DecidableEq

/-- Mutable session fields of the feed that `_load` and `_st_start` read
and write, together with the observable effects (delivered bars, emitted
notifications, count of historical requests issued to the gateway).
`gwHist` is the fixed content the gateway supplies to a historical
request; `seed` is the backfill_from source with its pending records. -/
structure MState where
  state : FState
  hasContract : Bool
  usertvol : Bool
  qlive : List LiveMsg
  qhist : List RTBar
  gwHist : List RTBar
  seed : Option (List SinkBar)
  lastDt : Rat
  delivered : List SinkBar
  notifs : List Notif
  histReqs : Nat
deriving DecidableEq

/-- Delivery of one bar: the sink slot is written and, once the buffer
advances, the bar timestamp is the new last delivered timestamp. -/
def deliverBar (s : MState) (bar : SinkBar) : MState :=
  {s with lastDt := bar.datetime, delivered := s.delivered ++ [bar]}

/-- Lines 491-539: `_st_start`. The historical-only path and the
backfill-at-start path both emit DELAYED, issue one historical request and
move to the backfill state; otherwise the state becomes LIVE with no
request. The source returns True on every path. -/
def st_start (p : IBParams) (s : MState) : Bool × MState :=
  if p.historical then
    (true, {s with notifs := s.notifs ++ [.delayed], histReqs := s.histReqs + 1,
                   qhist := s.gwHist, state := .historback})
  else if p.backfill_start then
    (true, {s with notifs := s.notifs ++ [.delayed], histReqs := s.histReqs + 1,
                   qhist := s.gwHist, state := .historback})
  else (true, {s with state := .live})

/-- Outcome of one iteration of the while loop of `_load`: a return value
with the final session fields, a continue with the new fields, or an
uncaught Python exception. -/
inductive StepRes
  | ret (b : Bool) (s : MState)
  | cont (s : MState)
  | crash (e : PyErr)
deriving DecidableEq

/-- Lines 434-489: one iteration of the while-True loop of `_load`.
Re-issuing the live subscription returns the already cached queue, so the
LIVE branch inspects `qlive` directly; an empty queue falls through to the
next iteration with unchanged fields. The backfill branch with an empty
historical queue either moves to LIVE (not historical-only) or emits
DISCONNECTED and returns False, leaving the state unchanged exactly as the
source does. -/
def loadStep (p : IBParams) (machineTzo : Rat) (s : MState) : StepRes :=
  match s.state with
  | .live =>
    match s.qlive with
    | [] => .cont s
    | msg :: qrest =>
      match s.usertvol, msg with
      | true, .vol v =>
        match load_rtvolume p.latethrough s.lastDt v with
        | some bar => .ret true (deliverBar {s with qlive := qrest} bar)
        | none => .cont {s with qlive := qrest}
      | false, .bar b =>
        match load_rtbar machineTzo p.latethrough s.lastDt b false p.hist_tzo with
        | some bar => .ret true (deliverBar {s with qlive := qrest} bar)
        | none => .cont {s with qlive := qrest}
      | _, _ => .crash .attributeError
  | .historback =>
    match s.qhist with
    | msg :: qrest =>
      match load_rtbar machineTzo p.latethrough s.lastDt msg true p.hist_tzo with
      | some bar => .ret true (deliverBar {s with qhist := qrest} bar)
      | none => .cont {s with qhist := qrest}
    | [] =>
      if p.historical = false then
        .cont {s with state := .live, notifs := s.notifs ++ [.liveNotif]}
      else .ret false {s with notifs := s.notifs ++ [.disconnected]}
  | .from_ =>
    match s.seed with
    | none => .crash .attributeError
    | some [] => .cont {s with state := .start}
    | some (r :: srest) => .ret true {(deliverBar s r) with seed := some srest}
  | .start =>
    match st_start p s with
    | (ok, s1) => if ok then .cont s1 else .ret false s1
  | .over => .cont s

/-- Result of a terminating `_load` call. -/
inductive LoadRes
  | ret (b : Bool) (s : MState)
  | crash (e : PyErr)
deriving DecidableEq

/-- Iterates the loop body with explicit fuel; `none` means the loop is
still running after that many iterations, so a result of `none` for every
fuel value is non-termination of the call. -/
def loadFuel (p : IBParams) (machineTzo : Rat) : Nat → MState → Option LoadRes
  | 0, _ => none
  | n + 1, s =>
    match loadStep p machineTzo s with
    | .ret b s1 => some (.ret b s1)
    | .cont s1 => loadFuel p machineTzo n s1
    | .crash e => some (.crash e)

/-- Lines 428-489: `_load`. The entry guard of lines 429-430 returns False
at once, with no side effect, when no contract was resolved or the state
is the terminal one; otherwise the loop runs. -/
def load (p : IBParams) (machineTzo : Rat) (fuel : Nat) (s : MState) :
    Option LoadRes :=
  if s.hasContract = false ∨ s.state = .over then some (.ret false s)
  else loadFuel p machineTzo fuel s

/-- Lines 374-379 of `start`: the initial machine state is FROM when a
backfill_from source is configured and START otherwise. -/
def startInitState (backfillFrom : Option (List SinkBar)) : FState :=
  match backfillFrom with
  | some _ => .from_
  | none => .start

/-- Baseline session with a resolved contract and everything else empty,
used by the concrete instances below. -/
def baseState : MState :=
  { state := .start, hasContract := true, usertvol := true, qlive := [],
    qhist := [], gwHist := [], seed := none, lastDt := 0, delivered := [],
    notifs := [], histReqs := 0 }

/-- Concrete LIVE session with an empty live channel. -/
def c2s : MState := {baseState with state := .live}

/-- Historical-only parameter set. -/
def c3p : IBParams := {historical := true}

/-- Concrete backfill-state session with an exhausted historical channel. -/
def c3s0 : MState := {baseState with state := .historback}

/-- Session fields after the first exhausted historical-only call. -/
def c3s1 : MState := {c3s0 with notifs := [.disconnected]}

/-- Session fields after the second exhausted historical-only call. -/
def c3s2 : MState := {c3s0 with notifs := [.disconnected, .disconnected]}

/-- Concrete backfill-state session for the live-transition claim. -/
def c8s : MState := {baseState with state := .historback}

/-- Live-only parameter set with backfill at start disabled. -/
def c9p : IBParams := {backfill_start := false}

/-- Concrete LIVE session holding one pending tick. -/
def c9s : MState := {baseState with state := .live, qlive := [.vol ⟨1, 2, 3⟩]}

/-- Session fields after delivering that tick. -/
def c9s1 : MState :=
  {baseState with state := .live, lastDt := 1, delivered := [⟨1, 2, 2, 2, 2, 3, 0⟩]}

/-- Concrete FROM_SEED session whose pending seed record is older than the
last delivered timestamp. -/
def c10s : MState :=
  {baseState with state := .from_, lastDt := 100, seed := some [⟨1, 1, 1, 1, 1, 1, 0⟩]}

/-- Predicate stating that one loop-iteration outcome left the count of
issued historical requests unchanged. -/
def stepKeepsHistReqs (s : MState) : StepRes → Prop
  | .ret _ s1 => s1.histReqs = s.histReqs
  | .cont s1 => s1.histReqs = s.histReqs
  | .crash _ => True

/- ## Helper lemmas -/

/-- A character-level split never yields an empty segment list. -/
theorem splitCh_ne_nil (sep : Char) (l : List Char) : splitCh sep l ≠ [] := by
  induction l with
  | nil => simp [splitCh]
  | cons c t ih =>
    unfold splitCh
    by_cases h : c = sep
    · simp [h]
    · rw [if_neg h]
      cases hr : splitCh sep t with
      | nil => exact absurd hr ih
      | cons a b => simp

/-- Python split never yields an empty token list. -/
theorem pySplit_ne_nil (sep : Char) (s : String) : pySplit sep s ≠ [] := by
  unfold pySplit
  intro h
  exact splitCh_ne_nil sep s.data (List.map_eq_nil_iff.mp h)

/-- Unwrapping of the final Option layer of a successful parse. -/
theorem exceptMapSome {α : Type} {e : Except PyErr α} {c : α}
    (h : Except.map some e = Except.ok (some c)) : e = Except.ok c := by
  cases e with
  | ok a =>
    simp only [Except.map] at h
    injection h with h1
    injection h1 with h2
    rw [h2]
  | error er => exact Except.noConfusion h

/-- A string accepted by the digit test is not empty. -/
theorem pyIsdigit_ne_empty (t : String) (hd : pyIsdigit t = true) : t ≠ "" := by
  intro h
  rw [h] at hd
  exact absurd hd (by decide)

/-- Shape of the inference step on an all-digit type token. -/
theorem inferSectypeExpiry_digit (t : String) (hd : pyIsdigit t = true) :
    inferSectypeExpiry t = ((if t.length = 6 then "FUT" else "OPT"), t) := by
  unfold inferSectypeExpiry
  rw [hd]
  simp

/-- The FUT tail keeps the expiry it was given. -/
theorem parseFutTail_expiry (symbol exch curr expiry : String) (toks : List String)
    (c : Contract) (h : parseFutTail symbol exch curr expiry toks = .ok c) :
    c.expiry = expiry := by
  cases toks with
  | nil =>
    simp only [parseFutTail] at h
    injection h with h1; subst h1; rfl
  | cons m toks3 =>
    cases toks3 with
    | nil =>
      simp only [parseFutTail] at h
      injection h with h1; subst h1; rfl
    | cons rtk toks4 =>
      simp only [parseFutTail] at h
      cases hf : pyFloat m with
      | none => rw [hf] at h; exact Except.noConfusion h
      | some strike =>
        rw [hf] at h
        cases toks4 with
        | nil => injection h with h1; subst h1; rfl
        | cons m2 t => injection h with h1; subst h1; rfl

/-- The FUT continuation keeps a nonempty expiry. -/
theorem parseFut_expiry (symbol exch curr expiry : String) (toks : List String)
    (c : Contract) (he : expiry ≠ "")
    (h : parseFut symbol exch curr expiry toks = .ok c) : c.expiry = expiry := by
  unfold parseFut at h
  rw [if_neg he] at h
  exact parseFutTail_expiry symbol exch curr expiry toks c h

/-- The OPT tail keeps the expiry it was given. -/
theorem parseOptTail_expiry (symbol exch curr expiry : String) (toks : List String)
    (c : Contract) (h : parseOptTail symbol exch curr expiry toks = .ok c) :
    c.expiry = expiry := by
  cases toks with
  | nil =>
    simp only [parseOptTail] at h
    injection h with h1; subst h1; rfl
  | cons sTok toks3 =>
    simp only [parseOptTail] at h
    cases hf : pyFloat sTok with
    | none => rw [hf] at h; exact Except.noConfusion h
    | some strike =>
      rw [hf] at h
      cases toks3 with
      | nil => injection h with h1; subst h1; rfl
      | cons r toks4 =>
        cases toks4 with
        | nil => injection h with h1; subst h1; rfl
        | cons m t => injection h with h1; subst h1; rfl

/-- The OPT continuation keeps a nonempty expiry. -/
theorem parseOpt_expiry (symbol exch curr expiry : String) (toks : List String)
    (c : Contract) (he : expiry ≠ "")
    (h : parseOpt symbol exch curr expiry toks = .ok c) : c.expiry = expiry := by
  unfold parseOpt at h
  rw [if_neg he] at h
  exact parseOptTail_expiry symbol exch curr expiry toks c h

/-- The optional token tail keeps a nonempty expiry. -/
theorem parseRest_expiry (symbol sectype exch curr expiry : String)
    (toks : List String) (c : Contract) (he : expiry ≠ "")
    (h : parseRest symbol sectype exch curr expiry toks = .ok c) :
    c.expiry = expiry := by
  cases toks with
  | nil =>
    simp only [parseRest] at h
    injection h with h1; subst h1; rfl
  | cons e toks2 =>
    cases toks2 with
    | nil =>
      simp only [parseRest] at h
      injection h with h1; subst h1; rfl
    | cons cu toks3 =>
      simp only [parseRest] at h
      by_cases hf : sectype = "FUT"
      · rw [if_pos hf] at h
        exact parseFut_expiry symbol e cu expiry toks3 c he h
      · rw [if_neg hf] at h
        by_cases ho : sectype = "OPT"
        · rw [if_pos ho] at h
          exact parseOpt_expiry symbol e cu expiry toks3 c he h
        · rw [if_neg ho] at h
          injection h with h1; subst h1; rfl

/-- A CASH security type with a dotless symbol raises ValueError. -/
theorem parseAfterInfer_cash_nodot (p : IBParams) (symbol sectype expiry : String)
    (rest2 : List String) (hca : sectype = "CASH")
    (hdot : (pySplit '.' symbol).length = 1) :
    parseAfterInfer p symbol sectype expiry rest2 = .error .valueError := by
  unfold parseAfterInfer
  rw [if_pos hca]
  cases hl : pySplit '.' symbol with
  | nil => exact absurd (hl ▸ hdot) (by decide)
  | cons x xs =>
    cases xs with
    | nil => rfl
    | cons y t =>
      have h2 : (x :: y :: t).length = 1 := hl ▸ hdot
      simp only [List.length_cons] at h2
      omega

/-- In the LIVE state with an empty live queue every loop iteration
leaves the session unchanged, so no amount of fuel makes the call
return: the loop spins. -/
theorem liveEmptyNoResult (p : IBParams) (machineTzo : Rat) :
    ∀ (n : Nat) (s : MState), s.state = FState.live → s.qlive = [] →
      loadFuel p machineTzo n s = none := by
  intro n
  induction n with
  | zero => intro s h1 h2; rfl
  | succ k ih =>
    intro s h1 h2
    have hstep : loadStep p machineTzo s = .cont s := by
      unfold loadStep
      rw [h1, h2]
    unfold loadFuel
    rw [hstep]
    exact ih s h1 h2

/- ## Claim theorems -/

/-- C1 (counterexample): for FGBL-200609-DTB-EUR-100-C with the default
parameters the parsed descriptor does not have multiplier C, contrary to
the claim: the probe token C is consumed as the option right, and the
multiplier is the empty string. -/
theorem C1_counterexample :
    ¬ ∃ c : Contract,
        parsecontract defaultIBParams (some "FGBL-200609-DTB-EUR-100-C") =
          .ok (some c) ∧ c.mult = "C" := by
  rintro ⟨c, hc, hm⟩
  have h : parsecontract defaultIBParams (some "FGBL-200609-DTB-EUR-100-C") =
      .ok (some (make_contract "FGBL" "FOP" "DTB" "EUR" "200609" 100 "C" "")) := by
    rfl
  rw [h] at hc
  injection hc with h1
  injection h1 with h2
  rw [← h2] at hm
  exact absurd hm (by decide)

/-- C1 (amended): for FGBL-200609-DTB-EUR-100-C with defaults
(STK, SMART, empty currency) the parse yields security type FOP, strike
100, right C and an empty multiplier: on the FUT path the probe token is
consumed as the right, the earlier multiplier token is reparsed as the
strike, the multiplier is cleared, and only a seventh token would fill it
again. -/
theorem C1_fop_promotion :
    parsecontract defaultIBParams (some "FGBL-200609-DTB-EUR-100-C") =
      .ok (some (make_contract "FGBL" "FOP" "DTB" "EUR" "200609" 100 "C" "")) := by
  rfl

/-- C4 (counterexample): under the default late policy a tick whose
timestamp equals the last delivered timestamp, hence is not strictly
greater than it, is still delivered, so a bar that is not strictly newer
can be delivered and the same raw bar normalized twice with the same
state is delivered twice. -/
theorem C4_counterexample :
    ¬ ∀ (lastDt : Rat) (v : RTVol), ¬ lastDt < date2num v.time →
        load_rtvolume false lastDt v = none := by
  intro h
  have hv := h 5 ⟨5, 1, 1⟩ (by decide)
  exact absurd hv (by decide)

/-- C4 (amended): under the default late policy (latethrough false) a bar
is rejected exactly when its timestamp is strictly earlier than the last
delivered timestamp, for both the rtbar and the rtvolume normalizer;
equal timestamps pass, so delivered timestamps are non-decreasing rather
than strictly increasing. -/
theorem C4_reject_iff_strictly_earlier (machineTzo lastDt : Rat) (bar : RTBar)
    (hist : Bool) (histTzo : Option Rat) (v : RTVol) :
    (load_rtbar machineTzo false lastDt bar hist histTzo = none ↔
      rtbar_dt machineTzo histTzo hist bar < lastDt) ∧
    (load_rtvolume false lastDt v = none ↔ date2num v.time < lastDt) := by
  constructor
  · unfold load_rtbar
    by_cases h : rtbar_dt machineTzo histTzo hist bar < lastDt
    · simp [h]
    · simp [h]
  · unfold load_rtvolume
    by_cases h : date2num v.time < lastDt
    · simp [h]
    · simp [h]

/-- C5 (counterexample): with the default parameters the historical
timezone option is the number 0, not None, so the machine offset is not
applied: at a machine offset of 24 hours and bar date 0 the claimed value
would be 1 but the code yields 0. -/
theorem C5_counterexample :
    ¬ ∀ (machineTzo : Rat) (bar : RTBar),
        rtbar_dt machineTzo defaultIBParams.hist_tzo true bar =
          date2num (bar.date + machineTzo / 24) := by
  intro h
  have hb := h 24 ⟨0, 0, 0, 0, 0, 0, 0⟩
  have h0 : defaultIBParams.hist_tzo = some 0 := rfl
  rw [h0] at hb
  simp only [rtbar_dt, date2num] at hb
  norm_num at hb

/-- C5 (amended): the historical timezone offset option defaults to the
number 0 and the machine local offset is applied only when the option is
None; with any numeric value, including the default, the bar date is
converted with no correction at all. -/
theorem C5_hist_tzo_default (machineTzo k : Rat) (bar : RTBar) :
    rtbar_dt machineTzo defaultIBParams.hist_tzo true bar = date2num bar.date ∧
    rtbar_dt machineTzo (some k) true bar = date2num bar.date ∧
    rtbar_dt machineTzo none true bar = date2num (bar.date + machineTzo / 24) :=
  ⟨rfl, rfl, rfl⟩

/-- C2 (counterexample): at a concrete LIVE session with a resolved
contract and an empty live channel the produce call never returns: no
fuel bound yields a result, refuting the claim that such a call
terminates without delivering a bar. -/
theorem C2_counterexample :
    ¬ ∃ (n : Nat) (r : LoadRes), load defaultIBParams 0 n c2s = some r := by
  rintro ⟨n, r, h⟩
  have hg : ¬ (c2s.hasContract = false ∨ c2s.state = FState.over) := by decide
  unfold load at h
  rw [if_neg hg] at h
  rw [liveEmptyNoResult defaultIBParams 0 n c2s rfl rfl] at h
  exact Option.noConfusion h

/-- C2 (amended): a produce call in the LIVE state with a resolved
contract and an empty live channel does not terminate: for every fuel
bound the loop is still spinning on the non-blocking channel check, with
no notification, no state change and no bar; the wait happens inside the
call instead of being left to the caller. -/
theorem C2_live_empty_spins (p : IBParams) (machineTzo : Rat) (n : Nat)
    (s : MState) (hc : s.hasContract = true) (h1 : s.state = FState.live)
    (h2 : s.qlive = []) : load p machineTzo n s = none := by
  have hg : ¬ (s.hasContract = false ∨ s.state = FState.over) := by
    rw [hc, h1]
    simp
  unfold load
  rw [if_neg hg]
  exact liveEmptyNoResult p machineTzo n s h1 h2

/-- C2 (witness): the amended statement at a concrete session and fuel
bound. -/
theorem C2_witness : load defaultIBParams 0 9 c2s = none :=
  C2_live_empty_spins defaultIBParams 0 9 c2s rfl rfl rfl

/-- C3: evaluation at the failing input. A historical-only feed in the
backfill state with an exhausted historical channel emits DISCONNECTED
and returns false, but the state stays at the backfill state instead of
moving to the terminal state (the terminal constant of line 219 is
guarded at line 429 yet never assigned anywhere), so the immediately
following produce call emits DISCONNECTED again rather than returning
silently. -/
theorem C3_divergence :
    load c3p 0 1 c3s0 = some (.ret false c3s1) ∧
    c3s1.state = FState.historback ∧
    load c3p 0 1 c3s1 = some (.ret false c3s2) ∧
    c3s2.notifs = [Notif.disconnected, Notif.disconnected] :=
  ⟨rfl, rfl, rfl, rfl⟩

/-- C8: in the backfill state with an empty historical channel and a feed
that is not historical-only, the loop iteration emits the LIVE
notification, moves the state to LIVE and continues the loop inside the
same produce call; no bar is delivered from the exhausted source, nothing
else changes, and no error is raised. -/
theorem C8_exhaustion_goes_live (p : IBParams) (machineTzo : Rat) (s : MState)
    (hst : s.state = FState.historback) (hq : s.qhist = [])
    (hh : p.historical = false) :
    loadStep p machineTzo s =
      .cont {s with state := FState.live, notifs := s.notifs ++ [Notif.liveNotif]} := by
  unfold loadStep
  rw [hst, hq, hh]
  rfl

/-- C8 (witness): the transition at a concrete exhausted-backfill
session. -/
theorem C8_witness :
    loadStep defaultIBParams 0 c8s =
      .cont {c8s with state := FState.live, notifs := c8s.notifs ++ [Notif.liveNotif]} :=
  C8_exhaustion_goes_live defaultIBParams 0 c8s rfl rfl rfl

/-- C10: in the FROM_SEED state with a pending seed record the produce
call delivers that record verbatim and returns true; the parameters and
the last delivered timestamp are arbitrary, so no late-arrival or
ordering check is applied whatever the latethrough setting. -/
theorem C10_seed_unconditional (p : IBParams) (machineTzo : Rat) (s : MState)
    (r : SinkBar) (srest : List SinkBar)
    (hc : s.hasContract = true) (hst : s.state = FState.from_)
    (hsd : s.seed = some (r :: srest)) :
    load p machineTzo 1 s =
      some (.ret true {(deliverBar s r) with seed := some srest}) := by
  have hg : ¬ (s.hasContract = false ∨ s.state = FState.over) := by
    rw [hc, hst]
    simp
  unfold load
  rw [if_neg hg]
  unfold loadFuel
  have hstep : loadStep p machineTzo s =
      .ret true {(deliverBar s r) with seed := some srest} := by
    unfold loadStep
    rw [hst, hsd]
  rw [hstep]

/-- C10 (witness): a seed record strictly older than the last delivered
timestamp is still delivered under the default strict late policy. -/
theorem C10_witness :
    load defaultIBParams 0 1 c10s =
      some (.ret true {(deliverBar c10s ⟨1, 1, 1, 1, 1, 1, 0⟩) with seed := some []}) :=
  C10_seed_unconditional defaultIBParams 0 c10s ⟨1, 1, 1, 1, 1, 1, 0⟩ [] rfl rfl rfl

/-- Under a live-only configuration (historical-only disabled and
backfill at start disabled) no loop iteration changes the count of issued
historical requests. -/
theorem step_histReqs (p : IBParams) (machineTzo : Rat) (s : MState)
    (hh : p.historical = false) (hb : p.backfill_start = false) :
    stepKeepsHistReqs s (loadStep p machineTzo s) := by
  obtain ⟨st, hc, uv, ql, qh, gw, sd, ld, dv, nf, hr⟩ := s
  cases st with
  | live =>
    cases ql with
    | nil => simp [loadStep, stepKeepsHistReqs]
    | cons m t =>
      cases uv with
      | true =>
        cases m with
        | vol v =>
          simp only [loadStep]
          cases load_rtvolume p.latethrough ld v <;>
            simp [stepKeepsHistReqs, deliverBar]
        | bar b2 => simp [loadStep, stepKeepsHistReqs]
      | false =>
        cases m with
        | vol v => simp [loadStep, stepKeepsHistReqs]
        | bar b2 =>
          simp only [loadStep]
          cases load_rtbar machineTzo p.latethrough ld b2 false p.hist_tzo <;>
            simp [stepKeepsHistReqs, deliverBar]
  | historback =>
    cases qh with
    | nil => simp [loadStep, stepKeepsHistReqs, hh]
    | cons m t =>
      simp only [loadStep]
      cases load_rtbar machineTzo p.latethrough ld m true p.hist_tzo <;>
        simp [stepKeepsHistReqs, deliverBar]
  | from_ =>
    cases sd with
    | none => simp [loadStep, stepKeepsHistReqs]
    | some l =>
      cases l with
      | nil => simp [loadStep, stepKeepsHistReqs]
      | cons r t => simp [loadStep, stepKeepsHistReqs, deliverBar]
  | start => simp [loadStep, st_start, stepKeepsHistReqs, hh, hb]
  | over => simp [loadStep, stepKeepsHistReqs]

/-- The request-count invariant propagated through any terminating run of
the production loop under a live-only configuration. -/
theorem fuel_histReqs (p : IBParams) (machineTzo : Rat)
    (hh : p.historical = false) (hb : p.backfill_start = false) :
    ∀ (n : Nat) (s : MState) (b : Bool) (s1 : MState),
      loadFuel p machineTzo n s = some (.ret b s1) → s1.histReqs = s.histReqs := by
  intro n
  induction n with
  | zero => intro s b s1 h; exact Option.noConfusion h
  | succ k ih =>
    intro s b s1 h
    have hk := step_histReqs p machineTzo s hh hb
    unfold loadFuel at h
    cases hstep : loadStep p machineTzo s with
    | ret b2 s2 =>
      rw [hstep] at h hk
      injection h with h1
      injection h1 with hb2 hs2
      rw [← hs2]
      exact hk
    | cont s2 =>
      rw [hstep] at h hk
      have h2 := ih s2 b s1 h
      rw [h2]
      exact hk
    | crash e =>
      rw [hstep] at h
      injection h with h1
      exact LoadRes.noConfusion h1

/-- C9: a session started with no seed feed begins in the START state;
with backfill at start disabled and historical-only disabled the START
step moves the state directly to LIVE, changing nothing else and issuing
no historical request, and every terminating production run issues zero
historical requests. -/
theorem C9_start_direct_live (p : IBParams) (machineTzo : Rat) (n : Nat)
    (s s0 : MState) (b : Bool) (s1 : MState)
    (hh : p.historical = false) (hb : p.backfill_start = false)
    (hrun : loadFuel p machineTzo n s0 = some (.ret b s1)) :
    startInitState none = FState.start ∧
    st_start p s = (true, {s with state := FState.live}) ∧
    s1.histReqs = s0.histReqs := by
  refine ⟨rfl, ?_, fuel_histReqs p machineTzo hh hb n s0 b s1 hrun⟩
  unfold st_start
  rw [hh, hb]
  simp

/-- C9 (witness): a concrete one-tick live run under that configuration,
issuing no historical request. -/
theorem C9_witness :
    startInitState none = FState.start ∧
    st_start c9p baseState = (true, {baseState with state := FState.live}) ∧
    c9s1.histReqs = c9s.histReqs :=
  C9_start_direct_live c9p 0 1 baseState c9s true c9s1 rfl rfl (by decide)

/-- C6: a malformed identifier, meaning one with no symbol token at all
or one whose resolved security type is CASH while its symbol has no dot
separator, makes the parse raise immediately: the result is a Python
error, never a silently defaulted descriptor. -/
theorem C6_malformed_fatal (p : IBParams) (dn : String)
    (h : pySplit '-' dn = [] ∨
         (resolvedSectype p dn = "CASH" ∧ (pySplit '.' (symbolToken dn)).length = 1)) :
    ∃ e, parsecontract p (some dn) = .error e := by
  rcases h with h0 | ⟨hca, hdot⟩
  · refine ⟨.stopIteration, ?_⟩
    simp only [parsecontract]
    rw [h0]
    rfl
  · refine ⟨.valueError, ?_⟩
    simp only [parsecontract]
    cases hts : pySplit '-' dn with
    | nil => exact absurd hts (pySplit_ne_nil '-' dn)
    | cons sym rest =>
      have hsym : symbolToken dn = sym := by
        unfold symbolToken
        rw [hts]
        rfl
      rw [hsym] at hdot
      cases rest with
      | nil =>
        have hst : sectypeToken p dn = p.sectype := by
          unfold sectypeToken
          rw [hts]
        unfold resolvedSectype at hca
        rw [hst] at hca
        exact parseAfterInfer_cash_nodot p sym _ _ _ hca hdot
      | cons st2 r =>
        have hst : sectypeToken p dn = st2 := by
          unfold sectypeToken
          rw [hts]
        unfold resolvedSectype at hca
        rw [hst] at hca
        exact parseAfterInfer_cash_nodot p sym _ _ _ hca hdot

/-- C6 (witness): EURUSD-CASH resolves to the CASH type with a dotless
symbol and the parse raises. -/
theorem C6_witness :
    ∃ e, parsecontract defaultIBParams (some "EURUSD-CASH") = .error e :=
  C6_malformed_fatal defaultIBParams "EURUSD-CASH" (Or.inr ⟨by decide, by decide⟩)

/-- C7: when the second dash token is all digits the parse keeps that
token as the expiry of the resulting descriptor, and the inference step
of lines 301-308 yields security type FUT for a six-digit token and OPT
for an eight-digit token. -/
theorem C7_digit_token (p : IBParams) (dn t0 t1 : String) (rest : List String)
    (c : Contract) (htoks : pySplit '-' dn = t0 :: t1 :: rest)
    (hd : pyIsdigit t1 = true)
    (hok : parsecontract p (some dn) = .ok (some c)) :
    c.expiry = t1 ∧
    (t1.length = 6 → (inferSectypeExpiry t1).1 = "FUT") ∧
    (t1.length = 8 → (inferSectypeExpiry t1).1 = "OPT") := by
  have hne : t1 ≠ "" := pyIsdigit_ne_empty t1 hd
  have hinf := inferSectypeExpiry_digit t1 hd
  refine ⟨?_, ?_, ?_⟩
  · simp only [parsecontract] at hok
    rw [htoks] at hok
    simp only [parseTokens] at hok
    rw [hinf] at hok
    dsimp only at hok
    by_cases h6 : t1.length = 6
    · rw [if_pos h6] at hok
      unfold parseAfterInfer at hok
      rw [if_neg (by decide : ¬ ("FUT" : String) = "CASH")] at hok
      exact parseRest_expiry t0 "FUT" p.exchange p.currency t1 rest c hne
        (exceptMapSome hok)
    · rw [if_neg h6] at hok
      unfold parseAfterInfer at hok
      rw [if_neg (by decide : ¬ ("OPT" : String) = "CASH")] at hok
      exact parseRest_expiry t0 "OPT" p.exchange p.currency t1 rest c hne
        (exceptMapSome hok)
  · intro h6
    rw [hinf]
    simp [h6]
  · intro h8
    have h6 : ¬ t1.length = 6 := by omega
    rw [hinf]
    simp [if_neg h6]

/-- C7 (witness): FGBL-200609 parses to a FUT descriptor with expiry
200609 derived from the six-digit token. -/
theorem C7_witness :
    (make_contract "FGBL" "FUT" "SMART" "" "200609" 0 "" "").expiry = "200609" ∧
    (("200609" : String).length = 6 → (inferSectypeExpiry "200609").1 = "FUT") ∧
    (("200609" : String).length = 8 → (inferSectypeExpiry "200609").1 = "OPT") :=
  C7_digit_token defaultIBParams "FGBL-200609" "FGBL" "200609" []
    (make_contract "FGBL" "FUT" "SMART" "" "200609" 0 "" "") rfl rfl rfl

end IBData
